import Mathlib

set_option autoImplicit false

/-!
Shallow embedding of the connection-lifecycle core of `WalletProvider.tsx`:
the `SolletWalletAdapter` handshake adapter and the `WalletProvider`
connection orchestrator.  Asynchronous nondeterminism (which branch of a
race settles first, what a transport promise does) is made an explicit
input of each operation; each operation is a pure function from the prior
state and that input to the final state, the list of emitted events, the
error rethrown to the caller (if any), and a ledger of the resources that
remain registered.
-/

namespace WalletAdapter

/-- Error taxonomy from `@solana/wallet-adapter-base` as used in the source;
message-carrying errors keep their message string. -/
inductive WalletError where
  | WalletNotReadyError
  | WalletNotSelectedError
  | WalletNotConnectedError
  | WalletLoadError (msg : String)
  | WalletConfigError (msg : String)
  | WalletConnectionError (msg : String)
  | WalletWindowClosedError
  | WalletWindowBlockedError
  | WalletTimeoutError
  | WalletDisconnectionError (msg : String)
  | WalletDisconnectedError
  | WalletSignTransactionError (msg : String)
  | WalletSignMessageError (msg : String)
  deriving DecidableEq, Repr

/-- Events emitted on the adapter (`this.emit(...)`). -/
inductive AdapterEvent where
  | connectEv
  | disconnectEv
  | errorEv (e : WalletError)
  deriving DecidableEq, Repr

/-- `SolletWalletAdapterConfig.provider`: a remote string endpoint (popup
flow) or an injected `SolletWallet` object (extension flow). -/
inductive Provider where
  | remote (endpoint : String)
  | injected
  deriving DecidableEq, Repr

/-- `typeof provider === 'string'` (line 382). -/
def Provider.isRemote : Provider → Bool
  | .remote _ => true
  | .injected => false

/-- The `Wallet` transport instance once recorded as the live session
(`_wallet`); its public key is opaque, modelled as a `Nat`. -/
structure Session where
  connected : Bool
  publicKey : Option Nat
  deriving DecidableEq, Repr

/-- Fields of `SolletWalletAdapter` (lines 291-294).  `provider = none`
models an omitted config provider, for which `window.sollet` is used. -/
structure AdapterState where
  provider : Option Provider
  connecting : Bool
  wallet : Option Session
  deriving DecidableEq, Repr

/-- `get connected(): !!this._wallet?.connected` (lines 312-314). -/
def AdapterState.connected (s : AdapterState) : Bool :=
  (s.wallet.map Session.connected).getD false

/-- `const provider = this._provider || window.sollet!` (line 340): an absent
provider falls back to the injected `window.sollet` object. -/
def AdapterState.effProvider (s : AdapterState) : Provider :=
  s.provider.getD .injected

/-- The branch of the `connect()` handshake race (lines 362-399) that
settles the promise first. -/
inductive RaceWinner where
  | connectEvent
  | interceptedDisconnect
  | connectRejected (msg : String)
  | pollSawClosedPopup
  | pollBudgetExhausted
  | timerFired
  deriving DecidableEq, Repr

/-- Which branches can settle in which flow: the popup poll exists only for a
remote string provider (line 382), the 10s timeout only otherwise
(line 397). -/
def validWinner (p : Provider) : RaceWinner → Bool
  | .pollSawClosedPopup => p.isRemote
  | .pollBudgetExhausted => p.isRemote
  | .timerFired => !p.isRemote
  | _ => true

/-- Resources registered by the handshake race, tracked through settling and
cleanup. -/
structure RaceState where
  /-- the `connect` callback is attached as a listener on `wallet` -/
  connectListener : Bool
  /-- `wallet.handleDisconnect` is replaced by the interceptor -/
  intercepted : Bool
  /-- the 100ms poll interval is installed -/
  intervalSet : Bool
  /-- the 10s timeout is armed and has neither fired nor been cleared -/
  timeoutPending : Bool
  deriving DecidableEq, Repr

/-- Resource state once the promise executor body has run (lines 362-399):
interceptor installed, `connect` listener attached, `wallet.connect()`
started, and the flow-specific probe armed. -/
def raceInit (p : Provider) : RaceState :=
  { connectListener := true
    intercepted := true
    intervalSet := p.isRemote
    timeoutPending := !p.isRemote }

/-- Effect of the winning branch on the registered resources, from each
callback body: only the `connect` callback clears the timeout (line 364);
only the `connect` callback, the interceptor and the rejection handler remove
the `connect` listener (lines 365, 370, 378); the interval callbacks and the
timeout callback remove nothing; a fired one-shot timer is no longer
pending. -/
def settleBranch (st : RaceState) : RaceWinner → RaceState
  | .connectEvent => { st with timeoutPending := false, connectListener := false }
  | .interceptedDisconnect => { st with connectListener := false }
  | .connectRejected _ => { st with connectListener := false }
  | .pollSawClosedPopup => st
  | .pollBudgetExhausted => st
  | .timerFired => { st with timeoutPending := false }

/-- The `finally` at lines 400-403: restore `handleDisconnect` and clear the
interval (only those two resources). -/
def raceFinally (st : RaceState) : RaceState :=
  { st with intercepted := false, intervalSet := false }

/-- Resource state after the race has settled via winner `w` and the
`finally` block has run. -/
def raceLedger (p : Provider) (w : RaceWinner) : RaceState :=
  raceFinally (settleBranch (raceInit p) w)

/-- Every race resource unregistered. -/
def RaceState.clean : RaceState :=
  { connectListener := false, intercepted := false, intervalSet := false,
    timeoutPending := false }

/-- A rejection reason: one of the adapter's own `WalletError`s
(`error instanceof WalletError`) or a foreign error with a message. -/
inductive Reason where
  | walletErr (e : WalletError)
  | jsErr (msg : String)
  deriving DecidableEq, Repr

/-- What the winning branch settles the race promise with: `none` means it
resolves (only the `connect` event does), otherwise the rejection reason of
its callback (lines 371, 379, 388, 390, 397). -/
def rejectReason : RaceWinner → Option Reason
  | .connectEvent => none
  | .interceptedDisconnect => some (.walletErr .WalletWindowClosedError)
  | .connectRejected msg => some (.jsErr msg)
  | .pollSawClosedPopup => some (.walletErr .WalletWindowClosedError)
  | .pollBudgetExhausted => some (.walletErr .WalletWindowBlockedError)
  | .timerFired => some (.walletErr .WalletTimeoutError)

/-- The catch at lines 404-407: a `WalletError` is rethrown as-is, anything
else is wrapped as `WalletConnectionError`. -/
def wrapReason : Reason → WalletError
  | .walletErr e => e
  | .jsErr m => .WalletConnectionError m

/-- Probes installed by lines 382-398, by flow: a 100ms interval in the popup
flow, a single 10000ms timeout in the extension flow. -/
structure ProbeSetup where
  intervalPeriodMs : Option Nat
  timeoutDelayMs : Option Nat
  deriving DecidableEq, Repr

def probeSetup (p : Provider) : ProbeSetup :=
  if p.isRemote then { intervalPeriodMs := some 100, timeoutDelayMs := none }
  else { intervalPeriodMs := none, timeoutDelayMs := some 10000 }

/-- One tick of the popup poll callback (lines 385-394): `popup` is
`some closed` when `(wallet as any)._popup` is present with closed-state
`closed`, and `count` is the counter value at the check (it starts at 0 and
is incremented after each check). -/
def pollTick (popup : Option Bool) (count : Nat) : Option WalletError :=
  match popup with
  | some closed => if closed then some .WalletWindowClosedError else none
  | none => if count > 50 then some .WalletWindowBlockedError else none

/-- The asynchronous environment of one `connect()` call: what `ready()`
returns, whether the dynamic import rejects (with which message), whether the
transport constructor throws (with which message), which race branch settles
first, and the transport public key on success. -/
structure ConnectEnv where
  ready : Bool
  importFail : Option String
  constructFail : Option String
  winner : RaceWinner
  sessionKey : Nat
  deriving DecidableEq, Repr

/-- Observable outcome of one `SolletWalletAdapter.connect()` call. -/
structure ConnectResult where
  /-- final adapter state, after the outer `finally` (line 418) -/
  state : AdapterState
  /-- events emitted on the adapter, in order -/
  events : List AdapterEvent
  /-- the error rethrown to the caller, if any (line 416) -/
  thrown : Option WalletError
  /-- `new SolWalletAdapter.default(provider, network)` was attempted (line 351) -/
  transportConstructed : Bool
  /-- `wallet.connect()` was invoked, i.e. the race ran (line 377) -/
  transportConnectCalled : Bool
  /-- race resources after the race `finally`, when the race ran -/
  ledger : Option RaceState
  /-- probes installed by the race, when the race ran -/
  probes : Option ProbeSetup
  /-- `window.open` was called during this call (the adapter's `connect`
  contains no `window.open`; the orchestrator's does) -/
  openedUrl : Bool
  deriving DecidableEq, Repr

/-- Result of a `connect()` call that throws before reaching the race;
`constructed` records whether the transport constructor was attempted.  The
outer catch emits `error` and rethrows (lines 414-416), the outer `finally`
clears `_connecting` (line 418). -/
def connectFailure (s : AdapterState) (e : WalletError) (constructed : Bool) :
    ConnectResult :=
  { state := { s with connecting := false }
    events := [.errorEv e]
    thrown := some e
    transportConstructed := constructed
    transportConnectCalled := false
    ledger := none
    probes := none
    openedUrl := false }

/-- `SolletWalletAdapter.connect` (lines 333-420) with the asynchronous world
fixed by `env`.  The whole body runs inside
`try ... catch (emit error; rethrow) finally (_connecting = false)`; in
particular the early return at line 335 still passes through that
`finally`. -/
def adapterConnect (s : AdapterState) (env : ConnectEnv) : ConnectResult :=
  if s.connected || s.connecting then
    { state := { s with connecting := false }
      events := []
      thrown := none
      transportConstructed := false
      transportConnectCalled := false
      ledger := none
      probes := none
      openedUrl := false }
  else if !env.ready then
    connectFailure s .WalletNotReadyError false
  else
    match env.importFail with
    | some m => connectFailure s (.WalletLoadError m) false
    | none =>
      match env.constructFail with
      | some m => connectFailure s (.WalletConfigError m) true
      | none =>
        let p := s.effProvider
        match rejectReason env.winner with
        | some r =>
          let e := wrapReason r
          { state := { s with connecting := false }
            events := [.errorEv e]
            thrown := some e
            transportConstructed := true
            transportConnectCalled := true
            ledger := some (raceLedger p env.winner)
            probes := some (probeSetup p)
            openedUrl := false }
        | none =>
          { state := { s with
                        connecting := false
                        wallet := some { connected := true
                                         publicKey := some env.sessionKey } }
            events := [.connectEv]
            thrown := none
            transportConstructed := true
            transportConnectCalled := true
            ledger := some (raceLedger p env.winner)
            probes := some (probeSetup p)
            openedUrl := false }

/-- The branch of the disconnect teardown race (lines 432-458) that settles
first. -/
inductive TeardownOutcome where
  | graceTimerFired
  | promiseResolved
  | promiseRejected (msg : String)
  | interceptedCallback
  deriving DecidableEq, Repr

/-- The one rejection message treated as success (line 451). -/
def benignDisconnectMsg : String := "Wallet disconnected"

/-- Observable outcome of one `SolletWalletAdapter.disconnect()` call. -/
structure DisconnectResult where
  state : AdapterState
  /-- value of `_wallet` at the moment the teardown promise is awaited
  (`none` also when there was no live session and no teardown ran) -/
  walletAtTeardownStart : Option Session
  teardownRan : Bool
  events : List AdapterEvent
  thrown : Option WalletError
  /-- the `finally` at lines 461-463 restored `handleDisconnect` -/
  interceptRestored : Bool
  /-- `_responsePromises` was reset (line 439, only when the intercepted
  callback fires) -/
  responsePromisesCleared : Bool
  deriving DecidableEq, Repr

/-- `SolletWalletAdapter.disconnect` (lines 422-467) with the teardown race
winner fixed by `o` (ignored when there is no live session).  The live
session reference is nulled at line 427, before the `await` at line 432. -/
def adapterDisconnect (s : AdapterState) (o : TeardownOutcome) :
    DisconnectResult :=
  match s.wallet with
  | none =>
    { state := s
      walletAtTeardownStart := none
      teardownRan := false
      events := [.disconnectEv]
      thrown := none
      interceptRestored := false
      responsePromisesCleared := false }
  | some _ =>
    let s1 : AdapterState := { s with wallet := none }
    let badMsg : Option String :=
      match o with
      | .promiseRejected m => if m = benignDisconnectMsg then none else some m
      | _ => none
    { state := s1
      walletAtTeardownStart := s1.wallet
      teardownRan := true
      events :=
        (match badMsg with
         | some m => [.errorEv (.WalletDisconnectionError m)]
         | none => []) ++ [.disconnectEv]
      thrown := none
      interceptRestored := true
      responsePromisesCleared :=
        match o with
        | .interceptedCallback => true
        | _ => false }

/-- What the transport's `signTransaction` promise does: `resolved none`
models a null/undefined resolution, for which the `|| transaction` fallback
at line 475 applies (a resolved transaction object is always truthy). -/
inductive SignOutcome where
  | resolved (t : Option Nat)
  | rejected (msg : String)
  deriving DecidableEq, Repr

/-- Observable outcome of a `signTransaction` call; transactions are opaque,
modelled as `Nat`. -/
structure SignResult where
  returned : Option Nat
  events : List AdapterEvent
  thrown : Option WalletError
  deriving DecidableEq, Repr

/-- `SolletWalletAdapter.signTransaction` (lines 469-483). -/
def adapterSignTransaction (s : AdapterState) (o : SignOutcome) (tx : Nat) :
    SignResult :=
  match s.wallet with
  | none =>
    { returned := none
      events := [.errorEv .WalletNotConnectedError]
      thrown := some .WalletNotConnectedError }
  | some _ =>
    match o with
    | .resolved t => { returned := some (t.getD tx), events := [], thrown := none }
    | .rejected m =>
      { returned := none
        events := [.errorEv (.WalletSignTransactionError m)]
        thrown := some (.WalletSignTransactionError m) }

/-- What the transport's `signAllTransactions` promise does: `resolved none`
models only a null/undefined resolution (in the source a resolved array,
even an empty one, is truthy, so `|| transactions` at line 491 applies only
to null/undefined). -/
inductive SignAllOutcome where
  | resolved (ts : Option (List Nat))
  | rejected (msg : String)
  deriving DecidableEq, Repr

structure SignAllResult where
  returned : Option (List Nat)
  events : List AdapterEvent
  thrown : Option WalletError
  deriving DecidableEq, Repr

/-- `SolletWalletAdapter.signAllTransactions` (lines 485-499). -/
def adapterSignAllTransactions (s : AdapterState) (o : SignAllOutcome)
    (txs : List Nat) : SignAllResult :=
  match s.wallet with
  | none =>
    { returned := none
      events := [.errorEv .WalletNotConnectedError]
      thrown := some .WalletNotConnectedError }
  | some _ =>
    match o with
    | .resolved ts => { returned := some (ts.getD txs), events := [], thrown := none }
    | .rejected m =>
      { returned := none
        events := [.errorEv (.WalletSignTransactionError m)]
        thrown := some (.WalletSignTransactionError m) }

/-! ## The connection orchestrator (`WalletProvider`) -/

/-- Observable `ConnectionState` fields of the provider (lines 32-37). -/
structure ConnFields where
  ready : Bool
  connecting : Bool
  disconnecting : Bool
  connected : Bool
  autoApprove : Bool
  publicKey : Option Nat
  deriving DecidableEq, Repr

/-- `reset` (lines 57-64): every field back to its initial value. -/
def resetFields : ConnFields :=
  { ready := false, connecting := false, disconnecting := false,
    connected := false, autoApprove := false, publicKey := none }

/-- What the orchestrator reads of a freshly constructed adapter instance
(`adapter.ready`, line 194). -/
structure AdapterHandle where
  ready : Bool
  deriving DecidableEq, Repr

/-- A `Wallet` descriptor: name is the lookup key of `walletsByName`, `url`
the help URL, `handle` the adapter `wallet.adapter()` constructs. -/
structure WalletDesc where
  url : String
  handle : AdapterHandle
  deriving DecidableEq, Repr

/-- Intermediate and final states of the name-change effect. -/
structure NameChangeTrace where
  /-- ConnectionState right after `reset()` (line 187), before
  `wallet.adapter()` runs (line 190) -/
  afterReset : ConnFields
  /-- the adapter constructed for the new name, if any -/
  newAdapter : Option AdapterHandle
  /-- ConnectionState once the effect finishes (line 194 seeds `ready`) -/
  final : ConnFields
  deriving Repr

/-- The name-change effect (lines 186-195): reset all ConnectionState fields,
resolve the descriptor for the new name, construct its adapter, seed `ready`
from it.  `db` is `walletsByName`; `prev` is the ConnectionState before the
effect (the effect body never reads it). -/
def nameChangeEffect (db : String → Option WalletDesc) (name : Option String)
    (prev : ConnFields) : NameChangeTrace :=
  let afterReset := resetFields
  let wallet := name.bind db
  let adapter := wallet.map WalletDesc.handle
  { afterReset := afterReset
    newAdapter := adapter
    final := { afterReset with
                ready := (adapter.map AdapterHandle.ready).getD false } }

/-- Orchestrator state relevant to the connect/disconnect call logic, with
bookkeeping for calls suspended at their `await` (one pending call per kind
covers the interleavings considered).  `hasWallet` says `wallet` and
`adapter` are both set (the name-change effect always sets them together). -/
structure OrchState where
  hasWallet : Bool
  ready : Bool
  connecting : Bool
  disconnecting : Bool
  connected : Bool
  connectPending : Bool
  disconnectPending : Bool
  deriving DecidableEq, Repr

/-- How the synchronous prefix of an orchestrator call ended. -/
inductive OrchOutcome where
  | noop
  | threw (e : WalletError)
  | openedUrlAndThrew (e : WalletError)
  | suspended
  deriving DecidableEq, Repr

/-- `connect` (lines 78-100) up to its `await` at line 96.  When `ready` is
false it calls `window.open(wallet.url, '_blank')` and then throws
`WalletNotReadyError` (lines 86-91). -/
def orchConnectBegin (s : OrchState) : OrchState × OrchOutcome :=
  if s.connecting || s.disconnecting || s.connected then (s, .noop)
  else if !s.hasWallet then (s, .threw .WalletNotSelectedError)
  else if !s.ready then (s, .openedUrlAndThrew .WalletNotReadyError)
  else ({ s with connecting := true, connectPending := true }, .suspended)

/-- Resumption of `connect` past its `await`: the `finally` at lines 97-99. -/
def orchConnectEnd (s : OrchState) : OrchState :=
  { s with connecting := false, connectPending := false }

/-- `disconnect` (lines 102-117) up to its `await` at line 112.  The guard at
line 103 checks only `disconnecting`; with no adapter it runs
`await select(null)` and returns without touching the flags. -/
def orchDisconnectBegin (s : OrchState) : OrchState × OrchOutcome :=
  if s.disconnecting then (s, .noop)
  else if !s.hasWallet then (s, .noop)
  else ({ s with disconnecting := true, disconnectPending := true }, .suspended)

/-- Resumption of `disconnect`: the `finally` at lines 113-116. -/
def orchDisconnectEnd (s : OrchState) : OrchState :=
  { s with disconnecting := false, disconnectPending := false }

/-- One atomic step of the single-threaded event loop: start a call, or
resume one suspended at its `await`. -/
inductive OrchStep : OrchState → OrchState → Prop where
  | connectBegin (s : OrchState) : OrchStep s (orchConnectBegin s).1
  | connectEnd (s : OrchState) :
      s.connectPending = true → OrchStep s (orchConnectEnd s)
  | disconnectBegin (s : OrchState) : OrchStep s (orchDisconnectBegin s).1
  | disconnectEnd (s : OrchState) :
      s.disconnectPending = true → OrchStep s (orchDisconnectEnd s)

/-- States reachable from `s0` by interleaved connect/disconnect calls. -/
inductive OrchReach (s0 : OrchState) : OrchState → Prop where
  | refl : OrchReach s0 s0
  | step {t u : OrchState} : OrchReach s0 t → OrchStep t u → OrchReach s0 u

/-- A selected, ready, idle orchestrator. -/
def orchInit : OrchState :=
  { hasWallet := true, ready := true, connecting := false,
    disconnecting := false, connected := false, connectPending := false,
    disconnectPending := false }

/-- Observable outcome of an orchestrator `sendTransaction` call. -/
structure SendRes where
  thrown : Option WalletError
  /-- `onError` calls, in order -/
  reported : List WalletError
  /-- `adapter.sendTransaction` was invoked -/
  delegated : Bool
  deriving DecidableEq, Repr

/-- `sendTransaction` (lines 119-135). -/
def orchSendTransaction (s : OrchState) : SendRes :=
  if !s.hasWallet then
    { thrown := some .WalletNotSelectedError
      reported := [.WalletNotSelectedError]
      delegated := false }
  else if !s.connected then
    { thrown := some .WalletNotConnectedError
      reported := [.WalletNotConnectedError]
      delegated := false }
  else
    { thrown := none, reported := [], delegated := true }

/-! ## Concrete fixtures -/

/-- Extension-flow adapter at rest: no config provider, so the injected
`window.sollet` object is used. -/
def idleExtensionAdapter : AdapterState :=
  { provider := none, connecting := false, wallet := none }

/-- Adapter with a `connect()` call already pending. -/
def midConnectAdapter : AdapterState :=
  { provider := none, connecting := true, wallet := none }

/-- Adapter with a live session. -/
def liveAdapter : AdapterState :=
  { provider := none, connecting := false,
    wallet := some { connected := true, publicKey := some 1 } }

/-- Environment in which everything proceeds and the 10-second timer fires
first. -/
def timerFiredEnv : ConnectEnv :=
  { ready := true, importFail := none, constructFail := none,
    winner := .timerFired, sessionKey := 0 }

/-- Environment in which the readiness check returns false. -/
def notReadyEnv : ConnectEnv :=
  { ready := false, importFail := none, constructFail := none,
    winner := .connectEvent, sessionKey := 0 }

/-- Selected but not-ready idle orchestrator. -/
def notReadyOrch : OrchState :=
  { hasWallet := true, ready := false, connecting := false,
    disconnecting := false, connected := false, connectPending := false,
    disconnectPending := false }

/-- Orchestrator with a `connect()` call pending. -/
def connectingOrch : OrchState :=
  { hasWallet := true, ready := true, connecting := true,
    disconnecting := false, connected := false, connectPending := true,
    disconnectPending := false }

/-! ## C1: handshake-race cleanup -/

/-- Branches whose settling callback removes the `connect` listener
(lines 365, 370, 378). -/
def RaceWinner.removesListener : RaceWinner → Bool
  | .connectEvent => true
  | .interceptedDisconnect => true
  | .connectRejected _ => true
  | _ => false

/-- Branches after which the 10-second timer is spent: cleared by the
`connect` callback (line 364), or itself fired. -/
def RaceWinner.settlesTimer : RaceWinner → Bool
  | .connectEvent => true
  | .timerFired => true
  | _ => false

/-- Claim C1, counterexample.  In the extension flow, when the 10-second
timeout wins the race, the losing success branch is not unregistered: after
the race settles and its `finally` runs, the `connect` listener is still
attached to the transport, so not every losing branch is cleaned up on this
exit path. -/
theorem connect_race_cleanup_cex :
    validWinner (AdapterState.effProvider idleExtensionAdapter)
      timerFiredEnv.winner = true ∧
    (adapterConnect idleExtensionAdapter timerFiredEnv).thrown =
      some .WalletTimeoutError ∧
    (adapterConnect idleExtensionAdapter timerFiredEnv).ledger ≠
      some RaceState.clean ∧
    ((adapterConnect idleExtensionAdapter timerFiredEnv).ledger.map
      RaceState.connectListener) = some true := by
  refine ⟨rfl, rfl, ?_, rfl⟩
  decide

/-- Claim C1, amended.  Within one handshake race the first settling branch
alone determines the outcome (the race resolves exactly when the transport's
`connect` event wins), and the `finally`-style cleanup always restores the
intercepted `handleDisconnect` and clears the poll interval; but the
`connect` listener is removed only when the winner is the `connect` event,
the intercepted `handleDisconnect`, or the connect-promise rejection, and in
the extension flow the 10-second timer is still pending after the race
settles unless the winner was the `connect` event or the timer itself. -/
theorem connect_race_cleanup (p : Provider) (w : RaceWinner)
    (h : validWinner p w = true) :
    raceLedger p w =
      { connectListener := !w.removesListener
        intercepted := false
        intervalSet := false
        timeoutPending := !p.isRemote && !w.settlesTimer } ∧
    (rejectReason w = none ↔ w = .connectEvent) := by
  constructor
  · cases p <;> cases w <;> rfl
  · cases w <;> simp [rejectReason]

/-- Claim C1, witness: the amended cleanup theorem applied at the popup flow
with the closed-popup poll branch winning. -/
theorem connect_race_cleanup_w :
    validWinner (.remote "https://www.sollet.io") .pollSawClosedPopup = true ∧
    (raceLedger (.remote "https://www.sollet.io") .pollSawClosedPopup =
      { connectListener := !RaceWinner.removesListener .pollSawClosedPopup
        intercepted := false
        intervalSet := false
        timeoutPending :=
          !Provider.isRemote (.remote "https://www.sollet.io") &&
            !RaceWinner.settlesTimer .pollSawClosedPopup } ∧
     (rejectReason .pollSawClosedPopup = none ↔
        RaceWinner.pollSawClosedPopup = RaceWinner.connectEvent)) :=
  ⟨by decide, connect_race_cleanup _ _ (by decide)⟩

/-! ## C2: mutual exclusion of `connecting`/`disconnecting` -/

/-- The orchestrator's `connecting` and `disconnecting` flags are set and
cleared in lockstep with the corresponding pending call. -/
def flagsTrackPending (s : OrchState) : Prop :=
  s.connecting = s.connectPending ∧ s.disconnecting = s.disconnectPending

theorem orchStep_flagsTrackPending {s t : OrchState} (hst : OrchStep s t)
    (h : flagsTrackPending s) : flagsTrackPending t := by
  obtain ⟨h1, h2⟩ := h
  cases hst with
  | connectBegin =>
      unfold orchConnectBegin
      split
      · exact ⟨h1, h2⟩
      · split
        · exact ⟨h1, h2⟩
        · split
          · exact ⟨h1, h2⟩
          · exact ⟨rfl, h2⟩
  | connectEnd hp => exact ⟨rfl, h2⟩
  | disconnectBegin =>
      unfold orchDisconnectBegin
      split
      · exact ⟨h1, h2⟩
      · split
        · exact ⟨h1, h2⟩
        · exact ⟨h1, rfl⟩
  | disconnectEnd hp => exact ⟨h1, rfl⟩

theorem orchReach_flagsTrackPending {t : OrchState}
    (h : OrchReach orchInit t) : flagsTrackPending t := by
  induction h with
  | refl => exact ⟨rfl, rfl⟩
  | step _ hst ih => exact orchStep_flagsTrackPending hst ih

/-- Claim C2, counterexample.  `disconnect()`'s guard checks only
`disconnecting`, so invoking it while a `connect()` call is suspended at its
`await` yields a reachable state with `connecting` and `disconnecting`
simultaneously true. -/
theorem flags_mutual_exclusion_cex :
    ∃ t : OrchState, OrchReach orchInit t ∧
      t.connecting = true ∧ t.disconnecting = true := by
  refine ⟨(orchDisconnectBegin (orchConnectBegin orchInit).1).1, ?_,
    by decide, by decide⟩
  exact .step (.step .refl (.connectBegin orchInit)) (.disconnectBegin _)

/-- Claim C2, amended.  Each flag tracks its own pending call, so
`connecting` and `disconnecting` are never simultaneously true in any
reachable state in which a connect call and a disconnect call are not both
pending; mutual exclusion fails only because `disconnect()`'s guard does not
check `connecting`, so a disconnect invoked while a connect is pending sets
both flags at once. -/
theorem flags_mutual_exclusion (t : OrchState) (h : OrchReach orchInit t)
    (hp : t.connectPending = false ∨ t.disconnectPending = false) :
    (t.connecting && t.disconnecting) = false := by
  obtain ⟨h1, h2⟩ := orchReach_flagsTrackPending h
  rcases hp with hp | hp
  · simp [h1, hp]
  · simp [h2, hp]

/-- Claim C2, witness: the amended mutual-exclusion theorem applied at the
initial idle orchestrator. -/
theorem flags_mutual_exclusion_w :
    OrchReach orchInit orchInit ∧
    (orchInit.connecting && orchInit.disconnecting) = false :=
  ⟨.refl, flags_mutual_exclusion orchInit .refl (Or.inl rfl)⟩

/-! ## C3: disconnect contract -/

/-- Claim C3: the adapter's `disconnect()` never throws; it emits exactly one
`disconnect` event in every case; with no live session it is a successful
no-op that still emits `disconnect`; with a live session the session
reference is already nulled when teardown is awaited, and a teardown
rejection with other than the recognized benign message is reported as
`WalletDisconnectionError` via an `error` event without being rethrown. -/
theorem disconnect_contract (s : AdapterState) (o : TeardownOutcome) :
    (adapterDisconnect s o).thrown = none ∧
    (adapterDisconnect s o).events.count .disconnectEv = 1 ∧
    (adapterDisconnect s o).state.wallet = none ∧
    (s.wallet = none →
      (adapterDisconnect s o).teardownRan = false ∧
      (adapterDisconnect s o).events = [.disconnectEv] ∧
      (adapterDisconnect s o).state = s) ∧
    (s.wallet ≠ none →
      (adapterDisconnect s o).walletAtTeardownStart = none ∧
      (adapterDisconnect s o).teardownRan = true) ∧
    (∀ m, s.wallet ≠ none → o = .promiseRejected m →
      m ≠ benignDisconnectMsg →
      (adapterDisconnect s o).events =
        [.errorEv (.WalletDisconnectionError m), .disconnectEv]) := by
  cases hw : s.wallet with
  | none =>
      refine ⟨?_, ?_, ?_, fun _ => ⟨?_, ?_, ?_⟩, fun hne => absurd rfl hne,
        fun m hne _ _ => absurd rfl hne⟩ <;>
        simp [adapterDisconnect, hw]
  | some sess =>
      have hcount : (adapterDisconnect s o).events.count .disconnectEv = 1 := by
        cases o with
        | promiseRejected m =>
            rcases eq_or_ne m benignDisconnectMsg with hm | hm <;>
              simp [adapterDisconnect, hw, hm]
        | graceTimerFired => simp [adapterDisconnect, hw]
        | promiseResolved => simp [adapterDisconnect, hw]
        | interceptedCallback => simp [adapterDisconnect, hw]
      refine ⟨?_, hcount, ?_, ?_, ?_, ?_⟩
      · simp [adapterDisconnect, hw]
      · simp [adapterDisconnect, hw]
      · intro h; exact Option.noConfusion h
      · intro _; simp [adapterDisconnect, hw]
      · intro m _ ho hm
        subst ho
        simp [adapterDisconnect, hw, hm]

/-- Claim C3, witness: a live session whose teardown rejects with a
non-benign message completes without throwing, reports a
`WalletDisconnectionError` and emits the final `disconnect`. -/
theorem disconnect_contract_w :
    (adapterDisconnect liveAdapter (.promiseRejected "boom")).thrown = none ∧
    (adapterDisconnect liveAdapter
      (.promiseRejected "boom")).walletAtTeardownStart = none ∧
    (adapterDisconnect liveAdapter (.promiseRejected "boom")).events =
      [.errorEv (.WalletDisconnectionError "boom"), .disconnectEv] := by
  obtain ⟨h1, -, -, -, h5, h6⟩ :=
    disconnect_contract liveAdapter (.promiseRejected "boom")
  exact ⟨h1, (h5 (by decide)).1, h6 "boom" (by decide) rfl (by decide)⟩

/-! ## C4: probe installation and probe outcomes -/

theorem pollTick_noPopup_low {c : Nat} (h : c ≤ 50) : pollTick none c = none := by
  simp only [pollTick]
  split
  · next hgt => exact absurd hgt (by omega)
  · rfl

theorem pollTick_noPopup_high {c : Nat} (h : 50 < c) :
    pollTick none c = some .WalletWindowBlockedError := by
  simp only [pollTick]
  split
  · rfl
  · next hgt => exact absurd h (by omega)

/-- Claim C4: in the popup flow (remote string provider) the race installs a
100ms poll and no timeout; a poll tick that sees a closed popup fails the
handshake with `WalletWindowClosedError`, and a tick at which no popup has
ever appeared fails it with `WalletWindowBlockedError` exactly once the
counter passes 50 (about five seconds at 100ms per tick); in the extension
flow the race installs a single 10000ms timer and no poll, and its expiry
fails the handshake with `WalletTimeoutError`. -/
theorem connect_probes (s : AdapterState) (env : ConnectEnv) (c : Nat)
    (h1 : s.connected = false) (h2 : s.connecting = false)
    (h3 : env.ready = true) (h4 : env.importFail = none)
    (h5 : env.constructFail = none) :
    (adapterConnect s env).probes = some (probeSetup s.effProvider) ∧
    (s.effProvider.isRemote = true →
      probeSetup s.effProvider =
        { intervalPeriodMs := some 100, timeoutDelayMs := none }) ∧
    (s.effProvider.isRemote = false →
      probeSetup s.effProvider =
        { intervalPeriodMs := none, timeoutDelayMs := some 10000 }) ∧
    pollTick (some true) c = some .WalletWindowClosedError ∧
    (c ≤ 50 → pollTick none c = none) ∧
    (50 < c → pollTick none c = some .WalletWindowBlockedError) ∧
    (env.winner = .pollSawClosedPopup →
      (adapterConnect s env).thrown = some .WalletWindowClosedError) ∧
    (env.winner = .pollBudgetExhausted →
      (adapterConnect s env).thrown = some .WalletWindowBlockedError) ∧
    (env.winner = .timerFired →
      (adapterConnect s env).thrown = some .WalletTimeoutError) := by
  refine ⟨?_, ?_, ?_, rfl, fun hc => pollTick_noPopup_low hc,
    fun hc => pollTick_noPopup_high hc, ?_, ?_, ?_⟩
  · cases hwr : env.winner <;>
      simp [adapterConnect, h1, h2, h3, h4, h5, hwr, rejectReason]
  · intro hr; simp [probeSetup, hr]
  · intro hr; simp [probeSetup, hr]
  · intro hwr
    simp [adapterConnect, h1, h2, h3, h4, h5, hwr, rejectReason, wrapReason]
  · intro hwr
    simp [adapterConnect, h1, h2, h3, h4, h5, hwr, rejectReason, wrapReason]
  · intro hwr
    simp [adapterConnect, h1, h2, h3, h4, h5, hwr, rejectReason, wrapReason]

/-- Claim C4, witness: the probe theorem applied at the extension-flow
adapter whose 10-second timer fires. -/
theorem connect_probes_w :
    (adapterConnect idleExtensionAdapter timerFiredEnv).thrown =
      some WalletError.WalletTimeoutError :=
  (connect_probes idleExtensionAdapter timerFiredEnv 0 rfl rfl rfl rfl
    rfl).2.2.2.2.2.2.2.2 rfl

/-! ## C5: not-ready behavior and the install-URL side effect -/

/-- Claim C5, counterexample.  A concrete `connect()` call on the adapter
whose readiness check returns false fails with `WalletNotReadyError` but
opens no URL: the install-page side effect is not part of the adapter's
`connect()` (it lives in the orchestrator's `connect()`). -/
theorem not_ready_url_cex :
    (adapterConnect idleExtensionAdapter notReadyEnv).thrown =
      some WalletError.WalletNotReadyError ∧
    (adapterConnect idleExtensionAdapter notReadyEnv).openedUrl = false :=
  ⟨rfl, rfl⟩

/-- Claim C5, amended.  When the readiness check returns false the adapter's
`connect()` fails with `WalletNotReadyError` (emitting `error` first) but
opens no URL; the help-URL side effect belongs to the orchestrator's
`connect()`, which calls `window.open` on the wallet's URL and throws
`WalletNotReadyError` without delegating to the adapter. -/
theorem not_ready_behavior (s : AdapterState) (env : ConnectEnv)
    (os : OrchState) (ha1 : s.connected = false) (ha2 : s.connecting = false)
    (ha3 : env.ready = false) (ho1 : os.connecting = false)
    (ho2 : os.disconnecting = false) (ho3 : os.connected = false)
    (ho4 : os.hasWallet = true) (ho5 : os.ready = false) :
    adapterConnect s env = connectFailure s .WalletNotReadyError false ∧
    (adapterConnect s env).openedUrl = false ∧
    orchConnectBegin os = (os, .openedUrlAndThrew .WalletNotReadyError) := by
  have h : adapterConnect s env = connectFailure s .WalletNotReadyError false := by
    simp [adapterConnect, ha1, ha2, ha3]
  refine ⟨h, by rw [h]; rfl, ?_⟩
  simp [orchConnectBegin, ho1, ho2, ho3, ho4, ho5]

/-- Claim C5, witness: the amended theorem at concrete not-ready adapter and
orchestrator states. -/
theorem not_ready_behavior_w :
    adapterConnect idleExtensionAdapter notReadyEnv =
      connectFailure idleExtensionAdapter .WalletNotReadyError false ∧
    (adapterConnect idleExtensionAdapter notReadyEnv).openedUrl = false ∧
    orchConnectBegin notReadyOrch =
      (notReadyOrch, .openedUrlAndThrew .WalletNotReadyError) :=
  not_ready_behavior _ _ _ rfl rfl rfl rfl rfl rfl rfl rfl

/-! ## C6: sendTransaction while not connected -/

/-- Claim C6: an orchestrator `sendTransaction` while an adapter is selected
but `connected` is false reports `WalletNotConnectedError` to the error sink,
throws it, and never invokes the transport. -/
theorem send_not_connected (s : OrchState)
    (h1 : s.hasWallet = true) (h2 : s.connected = false) :
    orchSendTransaction s =
      { thrown := some .WalletNotConnectedError
        reported := [.WalletNotConnectedError]
        delegated := false } := by
  simp [orchSendTransaction, h1, h2]

/-- Claim C6, witness: the theorem at the selected, ready, idle
orchestrator. -/
theorem send_not_connected_w :
    orchSendTransaction orchInit =
      { thrown := some .WalletNotConnectedError
        reported := [.WalletNotConnectedError]
        delegated := false } :=
  send_not_connected orchInit rfl rfl

/-! ## C7: full reset on selection change -/

/-- Claim C7: the name-change effect first resets every ConnectionState field
to its initial value and only then constructs the new wallet's adapter; the
whole trace is independent of the previous ConnectionState (no field of the
previously selected wallet is observable), and once the effect finishes
every field except `ready` — seeded from the newly constructed adapter —
still holds its initial value. -/
theorem selection_change_reset (db : String → Option WalletDesc)
    (n : Option String) (p q : ConnFields) :
    (nameChangeEffect db n p).afterReset = resetFields ∧
    nameChangeEffect db n p = nameChangeEffect db n q ∧
    (nameChangeEffect db n p).final.connecting = false ∧
    (nameChangeEffect db n p).final.disconnecting = false ∧
    (nameChangeEffect db n p).final.connected = false ∧
    (nameChangeEffect db n p).final.autoApprove = false ∧
    (nameChangeEffect db n p).final.publicKey = none ∧
    (nameChangeEffect db n p).final.ready =
      ((n.bind db).map (fun w => w.handle.ready)).getD false := by
  refine ⟨rfl, rfl, rfl, rfl, rfl, rfl, rfl, ?_⟩
  cases h : n.bind db <;> simp [nameChangeEffect, resetFields, h]

/-! ## C8: connect while already connected or connecting -/

/-- Claim C8, counterexample.  A `connect()` call while a previous one is
pending (`connecting = true`) is not a no-op on the adapter: the early
return still passes through the `finally` at line 418, which resets the
internal connecting flag to false while the first call is still pending. -/
theorem connect_noop_cex :
    midConnectAdapter.connecting = true ∧
    (adapterConnect midConnectAdapter timerFiredEnv).state.connecting = false ∧
    (adapterConnect midConnectAdapter timerFiredEnv).state ≠
      midConnectAdapter :=
  ⟨rfl, rfl, by decide⟩

/-- Claim C8, amended.  A `connect()` while already connected or connecting
constructs no second session: the adapter returns immediately without
loading, constructing or connecting the transport, without emitting any
event and without throwing, and an orchestrator `connect()` issued while one
is pending observes `connecting = true` and returns without delegating;
however the adapter's early return is not a pure no-op — it passes through
the `finally` block, which clears the adapter's internal connecting flag. -/
theorem connect_no_second_session (s : AdapterState) (env : ConnectEnv)
    (os : OrchState) (h : s.connected = true ∨ s.connecting = true)
    (ho : os.connecting = true) :
    (adapterConnect s env).transportConstructed = false ∧
    (adapterConnect s env).transportConnectCalled = false ∧
    (adapterConnect s env).events = [] ∧
    (adapterConnect s env).thrown = none ∧
    (adapterConnect s env).state.wallet = s.wallet ∧
    (adapterConnect s env).state.connecting = false ∧
    orchConnectBegin os = (os, .noop) := by
  have hg : (s.connected || s.connecting) = true := by
    rcases h with h | h <;> simp [h]
  simp [adapterConnect, hg, orchConnectBegin, ho]

/-- Claim C8, witness: the amended theorem at an adapter and an orchestrator
each with a connect call already pending. -/
theorem connect_no_second_session_w :
    (adapterConnect midConnectAdapter timerFiredEnv).transportConstructed = false ∧
    (adapterConnect midConnectAdapter timerFiredEnv).transportConnectCalled = false ∧
    (adapterConnect midConnectAdapter timerFiredEnv).events = [] ∧
    (adapterConnect midConnectAdapter timerFiredEnv).thrown = none ∧
    (adapterConnect midConnectAdapter timerFiredEnv).state.wallet =
      midConnectAdapter.wallet ∧
    (adapterConnect midConnectAdapter timerFiredEnv).state.connecting = false ∧
    orchConnectBegin connectingOrch = (connectingOrch, .noop) :=
  connect_no_second_session _ _ _ (Or.inr rfl) rfl

/-! ## C9: error event before rethrow, connecting cleared on all paths -/

/-- Claim C9: on every exit path of the adapter's `connect()` — success,
failure or early return — the internal connecting flag is false once the
call returns (the outer `finally`), and every failing execution emits
exactly one `error` event carrying the failure before the error is rethrown
to the caller. -/
theorem connect_error_event_cleanup (s : AdapterState) (env : ConnectEnv) :
    (adapterConnect s env).state.connecting = false ∧
    (∀ e, (adapterConnect s env).thrown = some e →
      (adapterConnect s env).events = [.errorEv e]) := by
  unfold adapterConnect connectFailure
  split
  · exact ⟨rfl, fun e he => by cases he⟩
  · split
    · exact ⟨rfl, fun e he => by cases he; rfl⟩
    · split
      · exact ⟨rfl, fun e he => by cases he; rfl⟩
      · split
        · exact ⟨rfl, fun e he => by cases he; rfl⟩
        · split
          · exact ⟨rfl, fun e he => by cases he; rfl⟩
          · exact ⟨rfl, fun e he => by cases he⟩

/-- Claim C9, witness: a failing `connect()` (readiness check false) ends
with the connecting flag false and exactly one `error` event carrying the
rethrown failure. -/
theorem connect_error_event_cleanup_w :
    (adapterConnect idleExtensionAdapter notReadyEnv).state.connecting = false ∧
    (adapterConnect idleExtensionAdapter notReadyEnv).events =
      [.errorEv .WalletNotReadyError] :=
  ⟨(connect_error_event_cleanup idleExtensionAdapter notReadyEnv).1,
   (connect_error_event_cleanup idleExtensionAdapter notReadyEnv).2
     .WalletNotReadyError rfl⟩

/-! ## C10: null signing result falls back to the input -/

/-- Claim C10: with a live session, when the transport's signing call
resolves null/undefined, `signTransaction` returns the caller's original
transaction and `signAllTransactions` the caller's original list, each
without an event or an error. -/
theorem null_sign_returns_input (s : AdapterState) (w : Session) (tx : Nat)
    (txs : List Nat) (h : s.wallet = some w) :
    adapterSignTransaction s (.resolved none) tx =
      { returned := some tx, events := [], thrown := none } ∧
    adapterSignAllTransactions s (.resolved none) txs =
      { returned := some txs, events := [], thrown := none } := by
  simp [adapterSignTransaction, adapterSignAllTransactions, h]

/-- Claim C10, witness: the fallback theorem at a live session with concrete
transactions. -/
theorem null_sign_returns_input_w :
    adapterSignTransaction liveAdapter (.resolved none) 7 =
      { returned := some 7, events := [], thrown := none } ∧
    adapterSignAllTransactions liveAdapter (.resolved none) [1, 2] =
      { returned := some [1, 2], events := [], thrown := none } :=
  null_sign_returns_input liveAdapter
    { connected := true, publicKey := some 1 } 7 [1, 2] rfl

end WalletAdapter
